import Mathlib

/-!
Verification of the metadata-initialization ceremony CLI
(`kaprien/cli/admin/ceremony.py`).

Shallow embedding conventions:
* Python strings are `PyStr := List Char`; `pystr` injects Lean string
  literals.
* Interactive prompts are modelled by passing the operator's answers in as
  data and recording each prompt shown as an `Event` in an output trace.
* The external key-import primitive
  (`securesystemslib.interface.import_ed25519_privatekey_from_file`) is an
  oracle `importFn : PyStr → PyStr → Except ImportErr KeyMaterial`; key
  material (a securesystemslib key dict) is abstracted to `KeyMaterial := Nat`
  (structural dict equality becomes equality of naturals).
* The mutable global `SETTINGS` is threaded explicitly; Python dicts that
  preserve insertion order are association lists.
-/

/-- A Python string, modelled as its list of characters. -/
abbrev PyStr := List Char

/-- Injection of a Lean string literal into the `PyStr` model. -/
def pystr (s : String) : PyStr := s.data

/-- Opaque key material (the securesystemslib key dict), abstracted up to
equality of contents. -/
abbrev KeyMaterial := Nat

/-- Python `str.endswith(suffix)`. -/
def pyEndsWith (s suffix : PyStr) : Bool := decide (suffix <:+ s)

/-- Characters removed by Python `str.strip()` with no argument. -/
def pyIsSpace (c : Char) : Bool := c == ' ' || c == '\t' || c == '\n' || c == '\r'

/-- Python `str.strip()`. -/
def pyStrip (s : PyStr) : PyStr :=
  ((s.dropWhile pyIsSpace).reverse.dropWhile pyIsSpace).reverse

/-- Python `str.split(sep)` for a one-character separator; the result is
always non-empty. -/
def pySplitOn (sep : Char) : PyStr → List PyStr
  | [] => [[]]
  | c :: rest =>
    let r := pySplitOn sep rest
    if c == sep then [] :: r
    else
      match r with
      | [] => [[c]]
      | h :: t => (c :: h) :: t

/-- Python `filepath.split("/")[-1]` (the last component; `split` never
returns an empty list). -/
def pyLastComponent (fp : PyStr) : PyStr := (pySplitOn '/' fp).getLastD []

/-- Decimal digits of a natural number, fuel-recursive so that it reduces in
the kernel (`fuel > n` always suffices since `n / 10 < n` for `n ≥ 10`). -/
def natToPyStrAux : Nat → Nat → PyStr
  | 0, _ => []
  | fuel + 1, n =>
    if n < 10 then [Char.ofNat (48 + n)]
    else natToPyStrAux fuel (n / 10) ++ [Char.ofNat (48 + n % 10)]

/-- Decimal rendering of a natural number, for the f-string
`f"{rolename}_{key_count}"`. -/
def natToPyStr (n : Nat) : PyStr := natToPyStrAux (n + 1) n

/-- Events observable on the terminal/network, used to state ordering
properties (which prompts are shown, how many HTTP calls happen). -/
inductive Event where
  | prompt (tag : String)
  | httpGet
  | httpPost
  deriving DecidableEq

/-- Number of operator prompts in a trace. -/
def promptCount (t : List Event) : Nat :=
  (t.filter (fun e => match e with | .prompt _ => true | _ => false)).length

/-- Number of HTTP POST requests in a trace. -/
def postCount (t : List Event) : Nat :=
  (t.filter (fun e => e == .httpPost)).length

/-- Number of HTTP requests (GET or POST) in a trace. -/
def httpCount (t : List Event) : Nat :=
  (t.filter (fun e => e == .httpGet || e == .httpPost)).length

/-- The `Roles` enum of the source (declaration order is the dict order of
`SETTINGS.roles`). -/
inductive Roles where
  | root | targets | snapshot | timestamp | bin | bins
  deriving DecidableEq

/-- `Roles.<NAME>.value` of the source. -/
def Roles.val : Roles → PyStr
  | .root => pystr "root"
  | .targets => pystr "targets"
  | .snapshot => pystr "snapshot"
  | .timestamp => pystr "timestamp"
  | .bin => pystr "bin"
  | .bins => pystr "bins"

/-- The `RoleSettings` dataclass of the source (per-role defaults row). -/
structure RoleSettings where
  expiration : Int
  threshold : Int
  keys : Int
  offline_keys : Bool
  deriving DecidableEq

/-- The `default_settings` dict of the source.  Callers only ever look up the
six role names of the `Roles` enum; the final branch is the `bins` row. -/
def default_settings (rname : PyStr) : RoleSettings :=
  if rname == Roles.root.val then ⟨356, 1, 2, true⟩
  else if rname == Roles.targets.val then ⟨365, 1, 2, true⟩
  else if rname == Roles.snapshot.val then ⟨1, 1, 1, false⟩
  else if rname == Roles.timestamp.val then ⟨1, 1, 1, false⟩
  else if rname == Roles.bin.val then ⟨365, 1, 1, true⟩
  else ⟨1, 1, 1, false⟩

/-- One key record as `_configure_keys` stores it:
`{"filename": filepath.split("/")[-1], "password": password, "key": key.key}`.
The record has exactly these three entries, so Python `record.get("path")`
yields `None` (see `recGet_path`). -/
structure KeyRecord where
  filename : PyStr
  password : PyStr
  key : Option KeyMaterial
  deriving DecidableEq

/-- `RolesKeysInput` of `kaprien.helpers.tuf`.

Modelled from the spec: the class itself is not under `src/`; the spec's data
model (§3) and payload schema (§6) give its fields — `expiration`,
`threshold`, `num_of_keys`, `offline_keys`, the insertion-ordered `keys`
mapping, `paths` (targets only) and `number_hash_prefixes` (bins only) — and
state that an instance starts with zero keys.  All other fields are written
before being read by the ceremony, so their initial values are irrelevant. -/
structure RolesKeysInput where
  expiration : Int := 0
  threshold : Int := 0
  num_of_keys : Int := 0
  offline_keys : Bool := false
  keys : List (PyStr × KeyRecord) := []
  paths : List PyStr := []
  number_hash_prefixes : Option Int := none
  deriving DecidableEq

/-- The `ServiceSettings` dataclass of the source. -/
structure ServiceSettings where
  targets_base_url : PyStr
  deriving DecidableEq

/-- The ordered role dict of `SETTINGS.roles`. -/
abbrev RolesMap := List (PyStr × RolesKeysInput)

/-- Enum declaration order, which is the insertion order of `SETTINGS.roles`. -/
def rolesOrder : List Roles := [.root, .targets, .snapshot, .timestamp, .bin, .bins]

/-- `SETTINGS.roles` as created at module load:
`{role.value: RolesKeysInput() for role in Roles}`. -/
def initialRoles : RolesMap := rolesOrder.map (fun r => (r.val, {}))

/-- `SETTINGS.service` as created at module load (`targets_base_url=""`). -/
def initialService : ServiceSettings := { targets_base_url := [] }

/-- The answers an operator gives to the prompts of `_configure_role` for one
role.  Prompt defaults are applied by the terminal layer, so each field is the
final value returned by the prompt. -/
structure RoleAnswers where
  expiration : Int
  num_of_keys : Int
  threshold_answer : Int
  show_example : Bool
  targets_base_url : PyStr
  input_paths : PyStr
  number_hash_prefixes : Int
  deriving DecidableEq

/-- Result of `_configure_role`: the prompts shown, the mutated role settings
and the (possibly updated) shared `ServiceSettings`. -/
structure ConfigOut where
  events : List Event
  role : RolesKeysInput
  service : ServiceSettings
  deriving DecidableEq

/-- `_configure_role(rolename, role)` of the source.  Mirrors the statement
order: clear `keys`; set `threshold` and `offline_keys` from the defaults
row; prompt for `expiration` and `num_of_keys`; prompt for `threshold` only
when `num_of_keys > 1`, otherwise force `threshold = 1`; then the
targets-specific prompts (base URL normalized to end with `/`, delegated
paths split on `,` and stripped) or the bins-specific hashed-bin prompt. -/
def _configure_role (rname : PyStr) (dflt : RoleSettings) (ans : RoleAnswers)
    (role : RolesKeysInput) (service : ServiceSettings) : ConfigOut :=
  let role1 : RolesKeysInput :=
    { role with
      keys := []
      threshold := dflt.threshold
      offline_keys := dflt.offline_keys
      expiration := ans.expiration
      num_of_keys := ans.num_of_keys }
  let role2 : RolesKeysInput :=
    if role1.num_of_keys > 1 then { role1 with threshold := ans.threshold_answer }
    else { role1 with threshold := 1 }
  let evs : List Event :=
    [Event.prompt "expiration", Event.prompt "num_of_keys"] ++
      (if role1.num_of_keys > 1 then [Event.prompt "threshold"] else [])
  if rname == Roles.targets.val then
    let url0 := ans.targets_base_url
    let url := if pyEndsWith url0 (pystr "/") = false then url0 ++ pystr "/" else url0
    { events := evs ++ [Event.prompt "show_example", Event.prompt "targets_base_url",
        Event.prompt "paths"]
      role := { role2 with paths := (pySplitOn ',' ans.input_paths).map pyStrip }
      service := { service with targets_base_url := url } }
  else if rname == Roles.bins.val then
    { events := evs ++ [Event.prompt "number_hash_prefixes"]
      role := { role2 with number_hash_prefixes := some ans.number_hash_prefixes }
      service := service }
  else
    { events := evs, role := role2, service := service }

/-- C9: whenever a targets base URL is entered during targets role
configuration, the stored `ServiceSettings.targets_base_url` ends with `/`:
a trailing `/` is appended exactly when the entered URL does not already end
with `/`; in particular `https://example.com/downloads` is stored as
`https://example.com/downloads/`. -/
theorem targets_base_url_trailing_slash (dflt : RoleSettings) (ans : RoleAnswers)
    (role : RolesKeysInput) (service : ServiceSettings) :
    ((_configure_role Roles.targets.val dflt ans role service).service.targets_base_url
        = (if pyEndsWith ans.targets_base_url (pystr "/") = false
           then ans.targets_base_url ++ pystr "/" else ans.targets_base_url))
    ∧ pyEndsWith
        ((_configure_role Roles.targets.val dflt ans role service).service.targets_base_url)
        (pystr "/") = true
    ∧ (_configure_role Roles.targets.val dflt
         { ans with targets_base_url := pystr "https://example.com/downloads" }
         role service).service.targets_base_url = pystr "https://example.com/downloads/" := by
  refine ⟨rfl, ?_, rfl⟩
  show pyEndsWith (if pyEndsWith ans.targets_base_url (pystr "/") = false
      then ans.targets_base_url ++ pystr "/" else ans.targets_base_url) (pystr "/") = true
  by_cases h : pyEndsWith ans.targets_base_url (pystr "/") = false
  · rw [if_pos h]
    exact decide_eq_true (List.suffix_append ans.targets_base_url (pystr "/"))
  · rw [if_neg h]
    exact eq_true_of_ne_false h

/-- C6: a role configured with `num_of_keys == 1` gets threshold `1`, forced
without showing the threshold prompt and regardless of the defaults row; the
threshold prompt is shown exactly when `num_of_keys > 1`. -/
theorem single_key_threshold_one (rname : PyStr) (dflt : RoleSettings)
    (ans : RoleAnswers) (role : RolesKeysInput) (service : ServiceSettings) :
    (ans.num_of_keys = 1 →
      (_configure_role rname dflt ans role service).role.threshold = 1)
    ∧ (Event.prompt "threshold" ∈ (_configure_role rname dflt ans role service).events
        ↔ ans.num_of_keys > 1) := by
  unfold _configure_role
  by_cases h : ans.num_of_keys > 1
  · simp only [if_pos h]
    constructor
    · intro h1; omega
    · split <;> split <;> simp [h]
  · simp only [if_neg h]
    constructor
    · intro _; split <;> split <;> rfl
    · split <;> split <;> simp [h]

/-- Witness for `single_key_threshold_one` at `num_of_keys = 1`. -/
theorem single_key_threshold_one_witness :
    ({ expiration := 1, num_of_keys := 1, threshold_answer := 7, show_example := false,
       targets_base_url := [], input_paths := [], number_hash_prefixes := 0
       : RoleAnswers }).num_of_keys = 1
    ∧ (_configure_role Roles.root.val (default_settings Roles.root.val)
        { expiration := 1, num_of_keys := 1, threshold_answer := 7, show_example := false,
          targets_base_url := [], input_paths := [], number_hash_prefixes := 0 }
        {} initialService).role.threshold = 1 :=
  ⟨by decide,
   (single_key_threshold_one Roles.root.val (default_settings Roles.root.val)
     { expiration := 1, num_of_keys := 1, threshold_answer := 7, show_example := false,
       targets_base_url := [], input_paths := [], number_hash_prefixes := 0 }
     {} initialService).1 (by decide)⟩

/-- C3 counterexample: configuring `root` with `num_of_keys = 2` and an
operator-entered threshold of `5` finalizes threshold `5`, violating
`threshold <= num_of_keys` — the code never validates the prompted value. -/
theorem threshold_bound_counterexample :
    (_configure_role Roles.root.val (default_settings Roles.root.val)
      { expiration := 365, num_of_keys := 2, threshold_answer := 5, show_example := false,
        targets_base_url := [], input_paths := [], number_hash_prefixes := 0 }
      {} initialService).role.num_of_keys = 2
    ∧ ¬((_configure_role Roles.root.val (default_settings Roles.root.val)
      { expiration := 365, num_of_keys := 2, threshold_answer := 5, show_example := false,
        targets_base_url := [], input_paths := [], number_hash_prefixes := 0 }
      {} initialService).role.threshold ≤
      (_configure_role Roles.root.val (default_settings Roles.root.val)
      { expiration := 365, num_of_keys := 2, threshold_answer := 5, show_example := false,
        targets_base_url := [], input_paths := [], number_hash_prefixes := 0 }
      {} initialService).role.num_of_keys) := by
  decide

/-- C3 (amended): after configuration of a role with `num_of_keys > 1`, the
finalized threshold is exactly the operator-entered value, with no validation
against `1 <= threshold <= num_of_keys`; the bound holds only when the entered
value happens to satisfy it. -/
theorem threshold_unvalidated_passthrough (rname : PyStr) (dflt : RoleSettings)
    (ans : RoleAnswers) (role : RolesKeysInput) (service : ServiceSettings)
    (h : ans.num_of_keys > 1) :
    (_configure_role rname dflt ans role service).role.threshold = ans.threshold_answer := by
  unfold _configure_role
  simp only [if_pos h]
  split <;> split <;> rfl

/-- Witness for `threshold_unvalidated_passthrough`. -/
theorem threshold_unvalidated_passthrough_witness :
    ((2 : Int) > 1)
    ∧ (_configure_role Roles.snapshot.val (default_settings Roles.snapshot.val)
        { expiration := 1, num_of_keys := 2, threshold_answer := 9, show_example := false,
          targets_base_url := [], input_paths := [], number_hash_prefixes := 0 }
        {} initialService).role.threshold = 9 :=
  ⟨by decide,
   threshold_unvalidated_passthrough Roles.snapshot.val (default_settings Roles.snapshot.val)
     { expiration := 1, num_of_keys := 2, threshold_answer := 9, show_example := false,
       targets_base_url := [], input_paths := [], number_hash_prefixes := 0 }
     {} initialService (by decide)⟩

/-- The `Key` dataclass of the source (`key: Optional[Dict]`,
`error: Optional[str]`, both defaulting to `None`). -/
structure Key where
  key : Option KeyMaterial := none
  error : Option PyStr := none
  deriving DecidableEq

/-- The exception taxonomy of `_load_key`' s `except` clauses
(securesystemslib exceptions). -/
inductive ImportErr where
  | cryptoError (msg : PyStr)
  | storageError (msg : PyStr)
  | formatError (msg : PyStr)
  | otherError (msg : PyStr)
  deriving DecidableEq

/-- `_load_key(filepath, password)` of the source: call the external import
primitive; `CryptoError` gets the "Check the password." suffix, the other
exception kinds are reported as-is; markup is elided. -/
def _load_key (importFn : PyStr → PyStr → Except ImportErr KeyMaterial)
    (filepath password : PyStr) : Key :=
  match importFn filepath password with
  | .ok k => { key := some k }
  | .error (.cryptoError m) =>
      { error := some (pystr "Failed: " ++ m ++ pystr " Check the password.") }
  | .error (.storageError m) => { error := some (pystr "Failed: " ++ m) }
  | .error (.formatError m) => { error := some (pystr "Failed: " ++ m) }
  | .error (.otherError m) => { error := some (pystr "Failed: " ++ m) }

/-- Python `record.get("key")` on a stored key record. -/
def recGet_key (k : KeyRecord) : Option KeyMaterial := k.key

/-- Python `record.get("path")` on a stored key record.  Records built by
`_configure_keys` contain exactly the entries `filename`, `password` and
`key`, so `get("path")` always yields `None`. -/
def recGet_path (_k : KeyRecord) : Option KeyMaterial := none

/-- `_key_is_duplicated(key)` of the source, over the list of
`role.keys.values()` for every role of `SETTINGS.roles` in dict order.  The
second branch (`key == k.get("path")`, an early `return False`) is kept
structurally. -/
def _key_is_duplicated (key : KeyMaterial) : List (List KeyRecord) → Bool
  | [] => false
  | r :: rest =>
    if r.any (fun k => some key == recGet_key k) then true
    else if r.any (fun k => some key == recGet_path k) then false
    else _key_is_duplicated key rest

/-- One pass of the key-collection loop of `_configure_keys`: the path and
password entered at the two prompts, and — consulted only when the load
fails — the answer to the "Try again?" confirmation. -/
structure ScriptEvent where
  filepath : PyStr
  password : PyStr
  try_again : Bool
  deriving DecidableEq

/-- Termination status of `_configure_keys`, carrying the role state (the
role object mutated in place by the source): `done` when the `while` guard
fails, `aborted` for the `ClickException`, `stuck` when the operator script
is exhausted with the loop still unfinished. -/
inductive KOut where
  | done (role : RolesKeysInput)
  | aborted (msg : PyStr) (role : RolesKeysInput)
  | stuck (role : RolesKeysInput)
  deriving DecidableEq

/-- The role state carried by any `KOut`. -/
def KOut.roleState : KOut → RolesKeysInput
  | .done r => r
  | .aborted _ r => r
  | .stuck r => r

/-- The duplicate-scan list `[role.keys.values() for role in
SETTINGS.roles.values()]` seen while the named role is being collected:
`before` and `after` are the other entries of `SETTINGS.roles` around it. -/
def keysScanList (before after : RolesMap) (rname : PyStr) (role : RolesKeysInput) :
    List (List KeyRecord) :=
  (before ++ (rname, role) :: after).map (fun p => p.2.keys.map Prod.snd)

/-- The f-string `f"{rolename}_{key_count}"` used as the key slot id. -/
def slotName (rname : PyStr) (key_count : Nat) : PyStr :=
  rname ++ pystr "_" ++ natToPyStr key_count

/-- `_configure_keys(rolename, role)` of the source.  The loop runs while
`len(role.keys) < role.num_of_keys`; each pass prompts for a path and a
password, loads the key, on failure asks "Try again?" (declining raises
`ClickException("Required key not validated.")`), skips duplicated keys, and
otherwise stores `{"filename": …, "password": …, "key": …}` under
`f"{rolename}_{key_count}"`.  Recursion is on the operator script. -/
def _configure_keys (rname : PyStr) (importFn : PyStr → PyStr → Except ImportErr KeyMaterial)
    (before after : RolesMap) :
    RolesKeysInput → Nat → List ScriptEvent → List Event × KOut
  | role, key_count, script =>
    if (role.keys.length : Int) < role.num_of_keys then
      match script with
      | [] => ([], .stuck role)
      | ev :: rest =>
        let key := _load_key importFn ev.filepath ev.password
        match key.error with
        | some _ =>
          if ev.try_again then
            let r := _configure_keys rname importFn before after role key_count rest
            (Event.prompt "key_path" :: Event.prompt "key_password" ::
              Event.prompt "try_again" :: r.1, r.2)
          else
            ([Event.prompt "key_path", Event.prompt "key_password",
              Event.prompt "try_again"],
             .aborted (pystr "Required key not validated.") role)
        | none =>
          match key.key with
          | some km =>
            if _key_is_duplicated km (keysScanList before after rname role) then
              let r := _configure_keys rname importFn before after role key_count rest
              (Event.prompt "key_path" :: Event.prompt "key_password" :: r.1, r.2)
            else
              let role' : RolesKeysInput :=
                { role with keys := role.keys ++ [(slotName rname key_count,
                    { filename := pyLastComponent ev.filepath, password := ev.password,
                      key := some km })] }
              let r := _configure_keys rname importFn before after role' (key_count + 1) rest
              (Event.prompt "key_path" :: Event.prompt "key_password" :: r.1, r.2)
          | none =>
            let role' : RolesKeysInput :=
              { role with keys := role.keys ++ [(slotName rname key_count,
                  { filename := pyLastComponent ev.filepath, password := ev.password,
                    key := none })] }
            let r := _configure_keys rname importFn before after role' (key_count + 1) rest
            (Event.prompt "key_path" :: Event.prompt "key_password" :: r.1, r.2)
    else ([], .done role)

/-- The key materials stored in one role's `keys` mapping, in insertion
order (records whose `key` entry is `None` contribute nothing). -/
def roleMaterials (r : RolesKeysInput) : List KeyMaterial :=
  r.keys.filterMap (fun p => p.2.key)

/-- The key materials of every role of a roles dict, in dict order. -/
def mapMaterials : RolesMap → List KeyMaterial
  | [] => []
  | p :: rest => roleMaterials p.2 ++ mapMaterials rest

/-- All key materials of `SETTINGS.roles` while the role between `before`
and `after` is being collected. -/
def allMaterials (before after : RolesMap) (role : RolesKeysInput) : List KeyMaterial :=
  mapMaterials before ++ roleMaterials role ++ mapMaterials after

theorem key_is_duplicated_eq_any (c : KeyMaterial) (rs : List (List KeyRecord)) :
    _key_is_duplicated c rs = rs.any (fun l => l.any (fun k => some c == recGet_key k)) := by
  induction rs with
  | nil => rfl
  | cons r rest ih =>
    rw [_key_is_duplicated]
    have hpath : (r.any fun k => some c == recGet_path k) = false := by
      simp [recGet_path]
    rw [hpath]
    cases h : r.any (fun k => some c == recGet_key k) with
    | true => simp [h]
    | false => simp [h, ih]

theorem any_role_iff (c : KeyMaterial) (r : RolesKeysInput) :
    ((r.keys.map Prod.snd).any (fun k => some c == recGet_key k) = true)
      ↔ c ∈ roleMaterials r := by
  simp only [roleMaterials, recGet_key, List.any_eq_true, List.mem_map, List.mem_filterMap]
  constructor
  · rintro ⟨k, ⟨p, hp, rfl⟩, hk⟩
    exact ⟨p, hp, (beq_iff_eq.mp hk).symm⟩
  · rintro ⟨p, hp, hk⟩
    exact ⟨p.2, ⟨p, hp, rfl⟩, beq_iff_eq.mpr hk.symm⟩

theorem mapMaterials_append (x y : RolesMap) :
    mapMaterials (x ++ y) = mapMaterials x ++ mapMaterials y := by
  induction x with
  | nil => rfl
  | cons p rest ih => simp [mapMaterials, ih]

theorem any_scan_iff (c : KeyMaterial) (m : RolesMap) :
    ((m.map (fun p => p.2.keys.map Prod.snd)).any
        (fun l => l.any (fun k => some c == recGet_key k)) = true)
      ↔ c ∈ mapMaterials m := by
  induction m with
  | nil => simp [mapMaterials]
  | cons p rest ih =>
    simp only [List.map_cons, List.any_cons, mapMaterials, List.mem_append,
      Bool.or_eq_true, ih, any_role_iff]

/-- `_key_is_duplicated` flags exactly the key materials already stored in
some role around the one being collected. -/
theorem dup_iff_mem (c : KeyMaterial) (b a : RolesMap) (rn : PyStr)
    (role : RolesKeysInput) :
    _key_is_duplicated c (keysScanList b a rn role) = true
      ↔ c ∈ allMaterials b a role := by
  rw [keysScanList, key_is_duplicated_eq_any, any_scan_iff, allMaterials]
  rw [mapMaterials_append]
  simp [mapMaterials, List.mem_append]

theorem nodup_insert_middle {α : Type} (x : α) (l₁ l₂ l₃ : List α)
    (h : (l₁ ++ l₂ ++ l₃).Nodup) (hx : x ∉ l₁ ++ l₂ ++ l₃) :
    (l₁ ++ (l₂ ++ [x]) ++ l₃).Nodup := by
  have e : l₁ ++ (l₂ ++ [x]) ++ l₃ = (l₁ ++ l₂) ++ x :: l₃ := by
    simp [List.append_assoc]
  rw [e, List.Perm.nodup_iff List.perm_middle, List.nodup_cons]
  exact ⟨by simpa using hx, by simpa using h⟩

theorem load_key_ok {importFn : PyStr → PyStr → Except ImportErr KeyMaterial}
    {fp pw : PyStr} {km : KeyMaterial} (himp : importFn fp pw = .ok km) :
    _load_key importFn fp pw = { key := some km, error := none } := by
  simp [_load_key, himp]

theorem load_key_error {importFn : PyStr → PyStr → Except ImportErr KeyMaterial}
    {fp pw : PyStr} {e : ImportErr} (himp : importFn fp pw = .error e) :
    ∃ m, _load_key importFn fp pw = { key := none, error := some m } := by
  cases e <;> simp [_load_key, himp]

theorem configure_keys_done {rname : PyStr}
    {importFn : PyStr → PyStr → Except ImportErr KeyMaterial} {b a : RolesMap}
    {role : RolesKeysInput} {kc : Nat} {script : List ScriptEvent}
    (h : ¬ ((role.keys.length : Int) < role.num_of_keys)) :
    _configure_keys rname importFn b a role kc script = ([], .done role) := by
  rw [_configure_keys.eq_def]
  simp [h]

theorem cfgk_stuck {rname : PyStr}
    {importFn : PyStr → PyStr → Except ImportErr KeyMaterial} {b a : RolesMap}
    {role : RolesKeysInput} {kc : Nat}
    (hlt : (role.keys.length : Int) < role.num_of_keys) :
    _configure_keys rname importFn b a role kc [] = ([], .stuck role) := by
  rw [_configure_keys.eq_def]
  simp [hlt]

theorem cfgk_err_retry {rname : PyStr}
    {importFn : PyStr → PyStr → Except ImportErr KeyMaterial} {b a : RolesMap}
    {role : RolesKeysInput} {kc : Nat} {ev : ScriptEvent} {rest : List ScriptEvent}
    {m : PyStr}
    (hlt : (role.keys.length : Int) < role.num_of_keys)
    (hm : _load_key importFn ev.filepath ev.password = { key := none, error := some m })
    (htry : ev.try_again = true) :
    _configure_keys rname importFn b a role kc (ev :: rest)
      = (Event.prompt "key_path" :: Event.prompt "key_password" ::
          Event.prompt "try_again" :: (_configure_keys rname importFn b a role kc rest).1,
         (_configure_keys rname importFn b a role kc rest).2) := by
  rw [_configure_keys.eq_def]
  simp [hlt, hm, htry]

theorem cfgk_err_abort {rname : PyStr}
    {importFn : PyStr → PyStr → Except ImportErr KeyMaterial} {b a : RolesMap}
    {role : RolesKeysInput} {kc : Nat} {ev : ScriptEvent} {rest : List ScriptEvent}
    {m : PyStr}
    (hlt : (role.keys.length : Int) < role.num_of_keys)
    (hm : _load_key importFn ev.filepath ev.password = { key := none, error := some m })
    (htry : ev.try_again = false) :
    _configure_keys rname importFn b a role kc (ev :: rest)
      = ([Event.prompt "key_path", Event.prompt "key_password", Event.prompt "try_again"],
         .aborted (pystr "Required key not validated.") role) := by
  rw [_configure_keys.eq_def]
  simp [hlt, hm, htry]

theorem cfgk_dup {rname : PyStr}
    {importFn : PyStr → PyStr → Except ImportErr KeyMaterial} {b a : RolesMap}
    {role : RolesKeysInput} {kc : Nat} {ev : ScriptEvent} {rest : List ScriptEvent}
    {km : KeyMaterial}
    (hlt : (role.keys.length : Int) < role.num_of_keys)
    (hk : _load_key importFn ev.filepath ev.password = { key := some km, error := none })
    (hdup : _key_is_duplicated km (keysScanList b a rname role) = true) :
    _configure_keys rname importFn b a role kc (ev :: rest)
      = (Event.prompt "key_path" :: Event.prompt "key_password" ::
          (_configure_keys rname importFn b a role kc rest).1,
         (_configure_keys rname importFn b a role kc rest).2) := by
  rw [_configure_keys.eq_def]
  simp [hlt, hk, hdup]

/-- The role state after accepting one key. -/
def acceptKey (rname : PyStr) (role : RolesKeysInput) (kc : Nat) (ev : ScriptEvent)
    (km : Option KeyMaterial) : RolesKeysInput :=
  { role with keys := role.keys ++ [(slotName rname kc,
      { filename := pyLastComponent ev.filepath, password := ev.password, key := km })] }

theorem cfgk_accept {rname : PyStr}
    {importFn : PyStr → PyStr → Except ImportErr KeyMaterial} {b a : RolesMap}
    {role : RolesKeysInput} {kc : Nat} {ev : ScriptEvent} {rest : List ScriptEvent}
    {km : KeyMaterial}
    (hlt : (role.keys.length : Int) < role.num_of_keys)
    (hk : _load_key importFn ev.filepath ev.password = { key := some km, error := none })
    (hdup : _key_is_duplicated km (keysScanList b a rname role) = false) :
    _configure_keys rname importFn b a role kc (ev :: rest)
      = (Event.prompt "key_path" :: Event.prompt "key_password" ::
          (_configure_keys rname importFn b a (acceptKey rname role kc ev (some km))
            (kc + 1) rest).1,
         (_configure_keys rname importFn b a (acceptKey rname role kc ev (some km))
            (kc + 1) rest).2) := by
  rw [_configure_keys.eq_def]
  simp [hlt, hk, hdup, acceptKey]

theorem nodup_append_singleton {α : Type} (x : α) (l : List α)
    (h : l.Nodup) (hx : x ∉ l) : (l ++ [x]).Nodup := by
  rw [List.Perm.nodup_iff (List.perm_append_singleton x l), List.nodup_cons]
  exact ⟨hx, h⟩

theorem roleMaterials_accept (rname : PyStr) (role : RolesKeysInput) (kc : Nat)
    (ev : ScriptEvent) (km : KeyMaterial) :
    roleMaterials (acceptKey rname role kc ev (some km)) = roleMaterials role ++ [km] := by
  simp [roleMaterials, acceptKey, List.filterMap_append]

theorem roleMaterials_accept_none (rname : PyStr) (role : RolesKeysInput) (kc : Nat)
    (ev : ScriptEvent) :
    roleMaterials (acceptKey rname role kc ev none) = roleMaterials role := by
  simp [roleMaterials, acceptKey, List.filterMap_append]

/-- Loop invariants of `_configure_keys`: `num_of_keys` is never written; the
key mapping never grows beyond `num_of_keys` (when it starts below it);
normal termination happens exactly when the `while` guard fails; the only
abort message is the `ClickException` text; and accepted key materials stay
duplicate-free, both within the collected role and across the whole roles
dict. -/
theorem configure_keys_spec (rname : PyStr)
    (importFn : PyStr → PyStr → Except ImportErr KeyMaterial) (b a : RolesMap) :
    ∀ (script : List ScriptEvent) (role : RolesKeysInput) (kc : Nat),
    ((_configure_keys rname importFn b a role kc script).2.roleState.num_of_keys
        = role.num_of_keys)
    ∧ ((role.keys.length : Int) ≤ role.num_of_keys →
        (((_configure_keys rname importFn b a role kc script).2.roleState.keys.length : Int)
          ≤ role.num_of_keys))
    ∧ (∀ r', (_configure_keys rname importFn b a role kc script).2 = KOut.done r' →
        ¬((r'.keys.length : Int) < r'.num_of_keys))
    ∧ (∀ m r', (_configure_keys rname importFn b a role kc script).2 = KOut.aborted m r' →
        m = pystr "Required key not validated.")
    ∧ ((roleMaterials role).Nodup →
        (roleMaterials ((_configure_keys rname importFn b a role kc script).2.roleState)).Nodup)
    ∧ ((allMaterials b a role).Nodup →
        (allMaterials b a
          ((_configure_keys rname importFn b a role kc script).2.roleState)).Nodup) := by
  intro script
  induction script with
  | nil =>
    intro role kc
    by_cases hlt : (role.keys.length : Int) < role.num_of_keys
    · rw [cfgk_stuck hlt]
      refine ⟨rfl, fun h => h, ?_, ?_, fun h => h, fun h => h⟩
      · intro r' hr'; cases hr'
      · intro m r' hr'; cases hr'
    · rw [configure_keys_done hlt]
      refine ⟨rfl, fun h => h, ?_, ?_, fun h => h, fun h => h⟩
      · rintro r' hr'
        cases hr'
        exact hlt
      · intro m r' hr'; cases hr'
  | cons ev rest ih =>
    intro role kc
    by_cases hlt : (role.keys.length : Int) < role.num_of_keys
    · cases himp : importFn ev.filepath ev.password with
      | error e =>
        obtain ⟨m, hm⟩ := load_key_error himp
        by_cases htry : ev.try_again = true
        · rw [cfgk_err_retry hlt hm htry]
          exact ih role kc
        · rw [cfgk_err_abort hlt hm (Bool.not_eq_true _ ▸ htry)]
          refine ⟨rfl, fun h => h, ?_, ?_, fun h => h, fun h => h⟩
          · intro r' hr'; cases hr'
          · intro m' r' hr'
            cases hr'
            rfl
      | ok km =>
        have hk := load_key_ok himp
        by_cases hdup : _key_is_duplicated km (keysScanList b a rname role) = true
        · rw [cfgk_dup hlt hk hdup]
          exact ih role kc
        · have hdupf : _key_is_duplicated km (keysScanList b a rname role) = false :=
            Bool.not_eq_true _ ▸ hdup
          rw [cfgk_accept hlt hk hdupf]
          have hnotmem : km ∉ allMaterials b a role := by
            intro hmem
            rw [← dup_iff_mem km b a rname role] at hmem
            rw [hdupf] at hmem
            cases hmem
          have hnum : (acceptKey rname role kc ev (some km)).num_of_keys
              = role.num_of_keys := rfl
          have hlen : (acceptKey rname role kc ev (some km)).keys.length
              = role.keys.length + 1 := by
            simp [acceptKey]
          obtain ⟨ih1, ih2, ih3, ih4, ih5, ih6⟩ := ih (acceptKey rname role kc ev (some km)) (kc + 1)
          refine ⟨by rw [ih1, hnum], ?_, ih3, ih4, ?_, ?_⟩
          · intro _
            have hb : ((acceptKey rname role kc ev (some km)).keys.length : Int)
                ≤ (acceptKey rname role kc ev (some km)).num_of_keys := by
              rw [hlen, hnum]
              push_cast
              omega
            have := ih2 hb
            rw [hnum] at this
            exact this
          · intro hnd
            refine ih5 ?_
            rw [roleMaterials_accept]
            refine nodup_append_singleton km _ hnd ?_
            intro hmem
            exact hnotmem (by
              rw [allMaterials]
              exact List.mem_append.mpr (Or.inl (List.mem_append.mpr (Or.inr hmem))))
          · intro hnd
            refine ih6 ?_
            have : allMaterials b a (acceptKey rname role kc ev (some km))
                = mapMaterials b ++ (roleMaterials role ++ [km]) ++ mapMaterials a := by
              rw [allMaterials, roleMaterials_accept]
            rw [this]
            rw [allMaterials] at hnd hnotmem
            exact nodup_insert_middle km _ _ _ hnd hnotmem
    · rw [configure_keys_done hlt]
      refine ⟨rfl, fun h => h, ?_, ?_, fun h => h, fun h => h⟩
      · rintro r' hr'
        cases hr'
        exact hlt
      · intro m r' hr'; cases hr'

/-- `RolesKeysInput.to_dict` (serialization of one role's settings for the
payload).

Modelled from the spec: the method lives in `kaprien.helpers.tuf`, not under
`src/`.  Per the payload schema (§6) and the data model (§3), serialization
is asdict-style: every field is included, in particular the `keys` mapping
with its full records.  In the embedding, serialization is the identity on
the structure. -/
def to_dict (r : RolesKeysInput) : RolesKeysInput := r

/-- The in-place `data.keys.clear()` that the ceremony performs for roles
with `offline_keys` before serializing them (lines 470-472). -/
def scrub_role (r : RolesKeysInput) : RolesKeysInput :=
  if r.offline_keys = true then { r with keys := [] } else r

/-- The `json_payload` built at the end of `ceremony` (lines 467-481):
`settings.service`, `settings.roles` (each role serialized after the offline
scrub, in dict order) and `metadata` (opaque objects produced by the external
`initialize_metadata` on the roles before the scrub). -/
structure Payload where
  service : ServiceSettings
  roles : List (PyStr × RolesKeysInput)
  metadata : List (PyStr × Nat)
  deriving DecidableEq

/-- Assembly of `json_payload`.  `initialize_metadata(SETTINGS.roles)` runs
first, on the unscrubbed roles; the scrub loop then clears `keys` of every
offline role before `to_dict`. -/
def assemble_payload (initMeta : RolesMap → List (PyStr × Nat))
    (roles : RolesMap) (service : ServiceSettings) : Payload :=
  { service := service
    roles := roles.map (fun p => (p.1, to_dict (scrub_role p.2)))
    metadata := initMeta roles }

/-- The password entries of one serialized role settings object. -/
def roleDictPasswords (r : RolesKeysInput) : List PyStr :=
  r.keys.map (fun p => p.2.password)

/-- The password entries of a serialized roles dict, in order. -/
def mapPasswords : List (PyStr × RolesKeysInput) → List PyStr
  | [] => []
  | q :: rest => roleDictPasswords q.2 ++ mapPasswords rest

/-- Every password value occurring anywhere in an assembled payload. -/
def payloadPasswords (p : Payload) : List PyStr := mapPasswords p.roles

/-- C1: in the assembled bootstrap payload, every role with
`offline_keys == true` is serialized with an empty `keys` mapping — no key
records, no passwords, no key material — while every role with
`offline_keys == false` retains its key records unchanged. -/
theorem offline_scrub_payload (roles : RolesMap) (service : ServiceSettings)
    (initMeta : RolesMap → List (PyStr × Nat)) (n : PyStr) (r : RolesKeysInput)
    (hmem : (n, r) ∈ roles) :
    ((n, to_dict (scrub_role r)) ∈ (assemble_payload initMeta roles service).roles)
    ∧ (r.offline_keys = true →
        (to_dict (scrub_role r)).keys = []
        ∧ roleDictPasswords (to_dict (scrub_role r)) = []
        ∧ roleMaterials (to_dict (scrub_role r)) = [])
    ∧ (r.offline_keys = false → (to_dict (scrub_role r)).keys = r.keys) := by
  refine ⟨?_, ?_, ?_⟩
  · exact List.mem_map_of_mem _ hmem
  · intro hoff
    simp [scrub_role, to_dict, hoff, roleDictPasswords, roleMaterials]
  · intro hoff
    simp [scrub_role, to_dict, hoff]

/-- Witness for `offline_scrub_payload` on a concrete offline role that holds
a key record before assembly. -/
theorem offline_scrub_payload_witness :
    ((pystr "root",
      { num_of_keys := 1, threshold := 1, offline_keys := true,
        keys := [(pystr "root_1", ⟨pystr "f.key", pystr "pw", some 5⟩)] })
      ∈ ([(pystr "root",
          { num_of_keys := 1, threshold := 1, offline_keys := true,
            keys := [(pystr "root_1", ⟨pystr "f.key", pystr "pw", some 5⟩)] })] : RolesMap))
    ∧ ({ num_of_keys := 1, threshold := 1, offline_keys := true,
         keys := [(pystr "root_1", ⟨pystr "f.key", pystr "pw", some 5⟩)]
         : RolesKeysInput }).offline_keys = true
    ∧ (to_dict (scrub_role
        { num_of_keys := 1, threshold := 1, offline_keys := true,
          keys := [(pystr "root_1", ⟨pystr "f.key", pystr "pw", some 5⟩)] })).keys = [] :=
  ⟨by decide, by decide,
   ((offline_scrub_payload
      [(pystr "root",
        { num_of_keys := 1, threshold := 1, offline_keys := true,
          keys := [(pystr "root_1", ⟨pystr "f.key", pystr "pw", some 5⟩)] })]
      initialService (fun _ => []) (pystr "root")
      { num_of_keys := 1, threshold := 1, offline_keys := true,
        keys := [(pystr "root_1", ⟨pystr "f.key", pystr "pw", some 5⟩)] }
      (by decide)).2.1 (by decide)).1⟩

/-- The roles dict of a small concrete run: the online `timestamp` role after
`_configure_keys` has collected one key with password `hunter2`. -/
def c4_roles : RolesMap :=
  [(Roles.timestamp.val,
    (_configure_keys Roles.timestamp.val (fun _ _ => Except.ok 7) [] []
      { num_of_keys := 1, threshold := 1, offline_keys := false } 1
      [⟨pystr "k.key", pystr "hunter2", true⟩]).2.roleState)]

/-- C4 counterexample: a password collected during key loading for an online
role (`timestamp`, `offline_keys == false`) appears in the assembled
payload — the scrub loop only clears offline roles, and online key records
keep their `"password"` entry. -/
theorem password_in_payload_counterexample :
    pystr "hunter2" ∈ payloadPasswords
      (assemble_payload (fun _ => []) c4_roles initialService) := by
  decide

/-- C4 (amended): the assembled payload contains no passwords for roles with
`offline_keys == true`; for roles with `offline_keys == false` the payload
retains exactly the passwords stored in the role's key records during key
loading. -/
theorem payload_passwords_online_retained (roles : RolesMap) (service : ServiceSettings)
    (initMeta : RolesMap → List (PyStr × Nat)) (n : PyStr) (r : RolesKeysInput)
    (hmem : (n, r) ∈ roles) :
    ((n, to_dict (scrub_role r)) ∈ (assemble_payload initMeta roles service).roles)
    ∧ (r.offline_keys = true → roleDictPasswords (to_dict (scrub_role r)) = [])
    ∧ (r.offline_keys = false →
        roleDictPasswords (to_dict (scrub_role r)) = r.keys.map (fun p => p.2.password)) := by
  refine ⟨List.mem_map_of_mem _ hmem, ?_, ?_⟩
  · intro hoff
    simp [scrub_role, to_dict, hoff, roleDictPasswords]
  · intro hoff
    simp [scrub_role, to_dict, hoff, roleDictPasswords]

/-- Witness for `payload_passwords_online_retained` on the concrete collected
`timestamp` role. -/
theorem payload_passwords_online_retained_witness :
    ((Roles.timestamp.val, (c4_roles.get ⟨0, by decide⟩).2) ∈ c4_roles)
    ∧ (c4_roles.get ⟨0, by decide⟩).2.offline_keys = false
    ∧ roleDictPasswords (to_dict (scrub_role (c4_roles.get ⟨0, by decide⟩).2))
        = (c4_roles.get ⟨0, by decide⟩).2.keys.map (fun p => p.2.password) :=
  ⟨by decide, by decide,
   (payload_passwords_online_retained c4_roles initialService (fun _ => [])
      Roles.timestamp.val (c4_roles.get ⟨0, by decide⟩).2 (by decide)).2.2 (by decide)⟩

/-- C2: `_key_is_duplicated` returns true exactly when the candidate key
material equals the material of a key record already accepted in some role's
`keys` mapping; it equals the pure content-only scan, so the `path`-based
branch never changes the verdict; and the collector keeps the materials of
the whole roles dict duplicate-free, so an accepted duplicate never enters
any `keys` mapping. -/
theorem duplicate_detection_content_only
    (c : KeyMaterial) (rs : List (List KeyRecord)) (rname : PyStr)
    (importFn : PyStr → PyStr → Except ImportErr KeyMaterial) (b a : RolesMap)
    (role : RolesKeysInput) (kc : Nat) (script : List ScriptEvent)
    (hnd : (allMaterials b a role).Nodup) :
    (_key_is_duplicated c rs = true ↔ ∃ l ∈ rs, ∃ k ∈ l, k.key = some c)
    ∧ (_key_is_duplicated c rs
        = rs.any (fun l => l.any (fun k => some c == recGet_key k)))
    ∧ (allMaterials b a
        ((_configure_keys rname importFn b a role kc script).2.roleState)).Nodup := by
  refine ⟨?_, key_is_duplicated_eq_any c rs, ?_⟩
  · rw [key_is_duplicated_eq_any]
    simp only [List.any_eq_true, recGet_key]
    constructor
    · rintro ⟨l, hl, k, hk, h⟩
      exact ⟨l, hl, k, hk, (beq_iff_eq.mp h).symm⟩
    · rintro ⟨l, hl, k, hk, h⟩
      exact ⟨l, hl, k, hk, beq_iff_eq.mpr h.symm⟩
  · exact (configure_keys_spec rname importFn b a script role kc).2.2.2.2.2 hnd

/-- Witness for `duplicate_detection_content_only`: a collection run over an
initially duplicate-free state stays duplicate-free. -/
theorem duplicate_detection_content_only_witness :
    (allMaterials [] [] ({ num_of_keys := 1 } : RolesKeysInput)).Nodup
    ∧ (allMaterials [] []
        ((_configure_keys (pystr "root") (fun _ _ => Except.ok 1) [] []
          { num_of_keys := 1 } 1
          [⟨pystr "a.key", pystr "pw", true⟩]).2.roleState)).Nodup :=
  ⟨by decide,
   (duplicate_detection_content_only 0 [] (pystr "root") (fun _ _ => Except.ok 1) [] []
     { num_of_keys := 1 } 1 [⟨pystr "a.key", pystr "pw", true⟩] (by decide)).2.2⟩

/-- C5 counterexample: with `num_of_keys = -1` (never validated), the
collection loop terminates normally at once with zero accepted keys, so the
mapping does not hold "exactly `num_of_keys`" keys and its size exceeds
`num_of_keys`. -/
theorem collector_negative_num_counterexample :
    ((_configure_keys (pystr "root") (fun _ _ => Except.ok 1) [] []
        { num_of_keys := -1 } 1 []).2
      = KOut.done { num_of_keys := -1 })
    ∧ ¬((({ num_of_keys := -1 } : RolesKeysInput).keys.length : Int)
        = ({ num_of_keys := -1 } : RolesKeysInput).num_of_keys)
    ∧ ((({ num_of_keys := -1 } : RolesKeysInput).keys.length : Int)
        > ({ num_of_keys := -1 } : RolesKeysInput).num_of_keys) := by
  refine ⟨by decide, by decide, by decide⟩

/-- C5 (amended): starting from the empty mapping left by `_configure_role`
and a non-negative `num_of_keys`, the collector terminates normally only with
exactly `num_of_keys` accepted, pairwise-distinct keys; the mapping's size
never exceeds `num_of_keys`; the only abort is the terminal
"Required key not validated." error; and a key-import failure with the
operator declining the retry aborts immediately. -/
theorem collector_termination_exact (rname : PyStr)
    (importFn : PyStr → PyStr → Except ImportErr KeyMaterial) (b a : RolesMap)
    (script : List ScriptEvent) (role : RolesKeysInput) (kc : Nat)
    (h0 : role.keys = []) (hnn : 0 ≤ role.num_of_keys) :
    (∀ r', (_configure_keys rname importFn b a role kc script).2 = KOut.done r' →
        (r'.keys.length : Int) = role.num_of_keys ∧ (roleMaterials r').Nodup)
    ∧ (((_configure_keys rname importFn b a role kc script).2.roleState.keys.length : Int)
        ≤ role.num_of_keys)
    ∧ (∀ m r', (_configure_keys rname importFn b a role kc script).2 = KOut.aborted m r' →
        m = pystr "Required key not validated.")
    ∧ (∀ ev rest, script = ev :: rest → 0 < role.num_of_keys →
        (∃ e, importFn ev.filepath ev.password = Except.error e) → ev.try_again = false →
        (_configure_keys rname importFn b a role kc script).2
          = KOut.aborted (pystr "Required key not validated.") role) := by
  obtain ⟨s1, s2, s3, s4, s5, _⟩ := configure_keys_spec rname importFn b a script role kc
  have hlen0 : (role.keys.length : Int) ≤ role.num_of_keys := by
    rw [h0]; simpa using hnn
  refine ⟨?_, s2 hlen0, s4, ?_⟩
  · intro r' hr'
    have hnum := s1
    rw [hr'] at hnum
    simp only [KOut.roleState] at hnum
    have hle := s2 hlen0
    rw [hr'] at hle
    simp only [KOut.roleState] at hle
    have hnlt := s3 r' hr'
    rw [hnum] at hnlt
    constructor
    · omega
    · have h5 := s5 (by simp [roleMaterials, h0])
      rw [hr'] at h5
      simpa [KOut.roleState] using h5
  · rintro ev rest rfl hpos ⟨e, he⟩ htry
    obtain ⟨m, hm⟩ := load_key_error he
    have hlt : (role.keys.length : Int) < role.num_of_keys := by
      rw [h0]; simpa using hpos
    rw [cfgk_err_abort hlt hm htry]

/-- Witness for `collector_termination_exact` on a one-key collection run. -/
theorem collector_termination_exact_witness :
    (({ num_of_keys := 1 } : RolesKeysInput).keys = [])
    ∧ ((0 : Int) ≤ ({ num_of_keys := 1 } : RolesKeysInput).num_of_keys)
    ∧ (((_configure_keys (pystr "root") (fun _ _ => Except.ok 1) [] []
          { num_of_keys := 1 } 1 [⟨pystr "a.key", pystr "pw", true⟩]).2.roleState.keys.length
        : Int) ≤ ({ num_of_keys := 1 } : RolesKeysInput).num_of_keys) :=
  ⟨by decide, by decide,
   (collector_termination_exact (pystr "root") (fun _ _ => Except.ok 1) [] []
     [⟨pystr "a.key", pystr "pw", true⟩] { num_of_keys := 1 } 1
     (by decide) (by decide)).2.1⟩

theorem configure_role_keys_nil (rname : PyStr) (dflt : RoleSettings)
    (ans : RoleAnswers) (role : RolesKeysInput) (service : ServiceSettings) :
    (_configure_role rname dflt ans role service).role.keys = [] := by
  unfold _configure_role
  dsimp only
  by_cases hgt : ans.num_of_keys > 1 <;> split <;> simp [hgt] <;> split <;> simp [hgt]

theorem configure_role_num (rname : PyStr) (dflt : RoleSettings)
    (ans : RoleAnswers) (role : RolesKeysInput) (service : ServiceSettings) :
    (_configure_role rname dflt ans role service).role.num_of_keys = ans.num_of_keys := by
  unfold _configure_role
  dsimp only
  by_cases hgt : ans.num_of_keys > 1 <;> split <;> simp [hgt] <;> split <;> simp [hgt]

/-- C10: `num_of_keys` is never validated to be positive.  With a
non-positive entered value, the threshold is still forced to `1` (without a
threshold prompt), key collection terminates immediately with zero accepted
keys, and the role is included in the assembled payload with an empty `keys`
mapping. -/
theorem nonpositive_num_of_keys_accepted (rname : PyStr) (dflt : RoleSettings)
    (ans : RoleAnswers) (role : RolesKeysInput) (service : ServiceSettings)
    (importFn : PyStr → PyStr → Except ImportErr KeyMaterial) (b a : RolesMap)
    (kc : Nat) (script : List ScriptEvent) (initMeta : RolesMap → List (PyStr × Nat))
    (h : ans.num_of_keys ≤ 0) :
    ((_configure_role rname dflt ans role service).role.threshold = 1)
    ∧ (Event.prompt "threshold" ∉ (_configure_role rname dflt ans role service).events)
    ∧ (_configure_keys rname importFn b a (_configure_role rname dflt ans role service).role
        kc script
        = ([], KOut.done (_configure_role rname dflt ans role service).role))
    ∧ ((_configure_role rname dflt ans role service).role.keys = [])
    ∧ ((rname, to_dict (scrub_role (_configure_role rname dflt ans role service).role))
        ∈ (assemble_payload initMeta
            (b ++ (rname, (_configure_role rname dflt ans role service).role) :: a)
            service).roles)
    ∧ ((to_dict (scrub_role (_configure_role rname dflt ans role service).role)).keys = []) := by
  have hng : ¬(ans.num_of_keys > 1) := by omega
  have hkeys := configure_role_keys_nil rname dflt ans role service
  have hnum := configure_role_num rname dflt ans role service
  have hdone : _configure_keys rname importFn b a
      (_configure_role rname dflt ans role service).role kc script
      = ([], KOut.done (_configure_role rname dflt ans role service).role) := by
    refine configure_keys_done ?_
    rw [hkeys, hnum]
    simpa using h
  have hscrub : (to_dict (scrub_role (_configure_role rname dflt ans role service).role)).keys
      = [] := by
    rw [to_dict, scrub_role]
    split
    · rfl
    · exact hkeys
  refine ⟨?_, ?_, hdone, hkeys, ?_, hscrub⟩
  · unfold _configure_role
    simp only [if_neg hng]
    split <;> split <;> rfl
  · unfold _configure_role
    simp only [if_neg hng]
    split <;> split <;> simp
  · exact List.mem_map_of_mem _
      (List.mem_append.mpr (Or.inr (List.mem_cons_self _ _)))

/-- Witness for `nonpositive_num_of_keys_accepted` at an entered
`num_of_keys` of `0` for the `root` role. -/
theorem nonpositive_num_of_keys_accepted_witness :
    (({ expiration := 365, num_of_keys := 0, threshold_answer := 1, show_example := false,
        targets_base_url := [], input_paths := [], number_hash_prefixes := 0
        : RoleAnswers }).num_of_keys ≤ 0)
    ∧ (_configure_role Roles.root.val (default_settings Roles.root.val)
        { expiration := 365, num_of_keys := 0, threshold_answer := 1, show_example := false,
          targets_base_url := [], input_paths := [], number_hash_prefixes := 0 }
        {} initialService).role.threshold = 1 :=
  ⟨by decide,
   (nonpositive_num_of_keys_accepted Roles.root.val (default_settings Roles.root.val)
     { expiration := 365, num_of_keys := 0, threshold_answer := 1, show_example := false,
       targets_base_url := [], input_paths := [], number_hash_prefixes := 0 }
     {} initialService (fun _ _ => Except.ok 1) [] [] 1 [] (fun _ => [])
     (by decide)).1⟩

/-- Decimal rendering of an integer, for the f-string of the precheck error
message. -/
def intToPyStr : Int → PyStr
  | .ofNat m => natToPyStr m
  | .negSucc m => '-' :: natToPyStr (m + 1)

/-- An HTTP response as the ceremony reads it: the status code, the
`bootstrap` and `message` members of the JSON body (`.get`, so absent members
are `None`), and the raw body text. -/
structure Response where
  status_code : Int
  bootstrap : Option Bool
  message : Option PyStr
  text : PyStr
  deriving DecidableEq

/-- Result of the GET issued by `_request_server`: either a
`requests.exceptions.ConnectionError` or a response. -/
inductive HttpResult where
  | conn_error
  | resp (r : Response)
  deriving DecidableEq

/-- The external world of one ceremony run: the two HTTP exchanges, the
key-import primitive and the external metadata initializer. -/
structure Env where
  get_bootstrap : HttpResult
  post_bootstrap : Response
  importFn : PyStr → PyStr → Except ImportErr KeyMaterial
  initMeta : RolesMap → List (PyStr × Nat)

/-- Python `f"{json_response.get('message')}"`. -/
def formatOptStr : Option PyStr → PyStr
  | some s => s
  | none => pystr "None"

/-- The `ClickException` message on a connection failure at precheck
(`f"Failed to connect to {server}"`). -/
def connectFailMsg : PyStr := pystr "Failed to connect to server"

/-- The `ClickException` message on a non-200 precheck response
(`f"Error: {response.status_code} | {response.text}"`). -/
def precheckErrMsg (r : Response) : PyStr :=
  pystr "Error: " ++ intToPyStr r.status_code ++ pystr " | " ++ r.text

/-- The bootstrap-status precheck at the top of `ceremony` (lines 348-363),
run only when a server was supplied: GET the bootstrap endpoint; a connection
failure, a non-200 status, or a body with `bootstrap == True` is fatal
(`some message`); anything else lets the ceremony start. -/
def ceremony_precheck (env : Env) : List Event × Option PyStr :=
  match env.get_bootstrap with
  | .conn_error => ([Event.httpGet], some connectFailMsg)
  | .resp r =>
    ([Event.httpGet],
      if r.status_code ≠ 200 then some (precheckErrMsg r)
      else if r.bootstrap == some true then some (formatOptStr r.message)
      else none)

/-- Phase result: `ok` on success, `aborted` for a `ClickException`, `stuck`
when the operator script is exhausted before the phase finished. -/
inductive PhRes (α : Type) where
  | ok (a : α)
  | aborted (msg : PyStr)
  | stuck
  deriving DecidableEq

/-- Whether a phase result is `ok`. -/
def PhRes.isOk {α : Type} : PhRes α → Bool
  | .ok _ => true
  | _ => false

/-- STEP 1 (lines 371-373): `_configure_role` for every role of
`SETTINGS.roles` in dict order, threading the shared service settings. -/
def configure_phase : RolesMap → List RoleAnswers → ServiceSettings →
    List Event × PhRes (RolesMap × ServiceSettings)
  | [], _, service => ([], .ok ([], service))
  | _ :: _, [], _ => ([], .stuck)
  | (n, r) :: rest, ans :: more, service =>
    let c := _configure_role n (default_settings n) ans r service
    match configure_phase rest more c.service with
    | (evs, .ok (rs, sv)) => (c.events ++ evs, .ok ((n, c.role) :: rs, sv))
    | (evs, .aborted m) => (c.events ++ evs, .aborted m)
    | (evs, .stuck) => (c.events ++ evs, .stuck)

/-- STEP 2 (lines 383-384): `_configure_keys` for every role in dict order.
`acc` holds the roles already collected (the part of `SETTINGS.roles` before
the current one), so duplicate scans see the whole dict. -/
def collect_phase (importFn : PyStr → PyStr → Except ImportErr KeyMaterial) :
    RolesMap → RolesMap → List (List ScriptEvent) → List Event × PhRes RolesMap
  | acc, [], _ => ([], .ok acc)
  | _, _ :: _, [] => ([], .stuck)
  | acc, (n, r) :: pending, ks :: more =>
    match _configure_keys n importFn acc pending r 1 ks with
    | (evs, KOut.done r') =>
      match collect_phase importFn (acc ++ [(n, r')]) pending more with
      | (evs2, res) => (evs ++ evs2, res)
    | (evs, KOut.aborted m _) => (evs, .aborted m)
    | (evs, KOut.stuck _) => (evs, .stuck)

/-- One pass of the per-role review loop: the confirmation answer and, when
declined, the answers for the re-run of `_configure_role` and
`_configure_keys`. -/
structure ReviewStep where
  confirm : Bool
  answers : RoleAnswers
  key_script : List ScriptEvent
  deriving DecidableEq

/-- STEP 3 for one role (lines 388-463): render the summary, ask for
confirmation; on decline reconfigure the role and recollect its keys, then
loop. -/
def review_role (importFn : PyStr → PyStr → Except ImportErr KeyMaterial)
    (b a : RolesMap) (n : PyStr) :
    RolesKeysInput → ServiceSettings → List ReviewStep →
    List Event × PhRes (RolesKeysInput × ServiceSettings)
  | _, _, [] => ([], .stuck)
  | r, sv, step :: more =>
    if step.confirm then ([Event.prompt "confirm_config"], .ok (r, sv))
    else
      let c := _configure_role n (default_settings n) step.answers r sv
      match _configure_keys n importFn b a c.role 1 step.key_script with
      | (evs, KOut.done r') =>
        match review_role importFn b a n r' c.service more with
        | (evs2, res) =>
          (Event.prompt "confirm_config" :: c.events ++ evs ++ evs2, res)
      | (evs, KOut.aborted m _) =>
        (Event.prompt "confirm_config" :: c.events ++ evs, .aborted m)
      | (evs, KOut.stuck _) =>
        (Event.prompt "confirm_config" :: c.events ++ evs, .stuck)

/-- STEP 3 over all roles in dict order, threading the service settings. -/
def review_phase (importFn : PyStr → PyStr → Except ImportErr KeyMaterial) :
    RolesMap → RolesMap → ServiceSettings → List (List ReviewStep) →
    List Event × PhRes (RolesMap × ServiceSettings)
  | acc, [], sv, _ => ([], .ok (acc, sv))
  | _, _ :: _, _, [] => ([], .stuck)
  | acc, (n, r) :: pending, sv, steps :: more =>
    match review_role importFn acc pending n r sv steps with
    | (evs, .ok (r', sv')) =>
      match review_phase importFn (acc ++ [(n, r')]) pending sv' more with
      | (evs2, res) => (evs ++ evs2, res)
    | (evs, .aborted m) => (evs, .aborted m)
    | (evs, .stuck) => (evs, .stuck)

/-- The operator's answers for one whole ceremony run. -/
structure CeremonyScript where
  start_ceremony : Bool
  role_answers : List RoleAnswers
  ready_to_load : Bool
  key_scripts : List (List ScriptEvent)
  reviews : List (List ReviewStep)

/-- The interactive part of `ceremony` after the precheck (lines 365-481):
intro confirmation, STEP 1, keys confirmation, STEP 2, STEP 3 and payload
assembly.  Declining either confirmation raises
`ClickException("Ceremony aborted.")`. -/
def ceremony_main (env : Env) (s : CeremonyScript) : List Event × PhRes Payload :=
  if s.start_ceremony = false then
    ([Event.prompt "start_ceremony"], .aborted (pystr "Ceremony aborted."))
  else
    match configure_phase initialRoles s.role_answers initialService with
    | (evs1, .aborted m) => (Event.prompt "start_ceremony" :: evs1, .aborted m)
    | (evs1, .stuck) => (Event.prompt "start_ceremony" :: evs1, .stuck)
    | (evs1, .ok (roles1, sv1)) =>
      if s.ready_to_load = false then
        (Event.prompt "start_ceremony" :: evs1 ++ [Event.prompt "ready_to_load"],
         .aborted (pystr "Ceremony aborted."))
      else
        match collect_phase env.importFn [] roles1 s.key_scripts with
        | (evs2, .aborted m) =>
          (Event.prompt "start_ceremony" :: evs1 ++ Event.prompt "ready_to_load" :: evs2,
           .aborted m)
        | (evs2, .stuck) =>
          (Event.prompt "start_ceremony" :: evs1 ++ Event.prompt "ready_to_load" :: evs2,
           .stuck)
        | (evs2, .ok roles2) =>
          match review_phase env.importFn [] roles2 sv1 s.reviews with
          | (evs3, .aborted m) =>
            (Event.prompt "start_ceremony" :: evs1 ++ Event.prompt "ready_to_load" ::
              (evs2 ++ evs3), .aborted m)
          | (evs3, .stuck) =>
            (Event.prompt "start_ceremony" :: evs1 ++ Event.prompt "ready_to_load" ::
              (evs2 ++ evs3), .stuck)
          | (evs3, .ok (roles3, sv2)) =>
            (Event.prompt "start_ceremony" :: evs1 ++ Event.prompt "ready_to_load" ::
              (evs2 ++ evs3),
             .ok (assemble_payload env.initMeta roles3 sv2))

/-- Possible endings of one `ceremony` invocation. -/
inductive Outcome where
  | completed (payload : Payload)
  | aborted (msg : PyStr)
  | stuck
  deriving DecidableEq

/-- The `ceremony` command.  With a server: GET precheck first (fatal on
connection failure, non-200 status, or `bootstrap == True`), then the
interactive run, then one POST of the payload — a non-201 response raises
`ClickException(response.text)` with no retry, a 201 completes.  Without a
server both HTTP calls are skipped and the run ends with the built payload. -/
def ceremony (server : Bool) (env : Env) (s : CeremonyScript) : List Event × Outcome :=
  if server then
    match (ceremony_precheck env).2 with
    | some m => ((ceremony_precheck env).1, .aborted m)
    | none =>
      match (ceremony_main env s).2 with
      | .aborted m => ((ceremony_precheck env).1 ++ (ceremony_main env s).1, .aborted m)
      | .stuck => ((ceremony_precheck env).1 ++ (ceremony_main env s).1, .stuck)
      | .ok payload =>
        if env.post_bootstrap.status_code ≠ 201 then
          ((ceremony_precheck env).1 ++ (ceremony_main env s).1 ++ [Event.httpPost],
           .aborted env.post_bootstrap.text)
        else
          ((ceremony_precheck env).1 ++ (ceremony_main env s).1 ++ [Event.httpPost],
           .completed payload)
  else
    match (ceremony_main env s).2 with
    | .aborted m => ((ceremony_main env s).1, .aborted m)
    | .stuck => ((ceremony_main env s).1, .stuck)
    | .ok payload => ((ceremony_main env s).1, .completed payload)

/-- C7: with a server supplied, a failed precheck is fatal before any
operator prompt: a connection failure, a non-200 status, and a 200 response
whose body has `bootstrap == true` (aborting with the body's `message`) each
end the ceremony with no prompt shown. -/
theorem precheck_fatal_before_prompts (env : Env) (s : CeremonyScript) :
    (env.get_bootstrap = HttpResult.conn_error →
        (ceremony true env s).2 = Outcome.aborted connectFailMsg
        ∧ promptCount (ceremony true env s).1 = 0)
    ∧ (∀ r, env.get_bootstrap = HttpResult.resp r → r.status_code ≠ 200 →
        (ceremony true env s).2 = Outcome.aborted (precheckErrMsg r)
        ∧ promptCount (ceremony true env s).1 = 0)
    ∧ (∀ r, env.get_bootstrap = HttpResult.resp r → r.status_code = 200 →
        r.bootstrap = some true →
        (ceremony true env s).2 = Outcome.aborted (formatOptStr r.message)
        ∧ promptCount (ceremony true env s).1 = 0) := by
  refine ⟨?_, ?_, ?_⟩
  · intro h
    have hpc : ceremony_precheck env = ([Event.httpGet], some connectFailMsg) := by
      rw [ceremony_precheck, h]
    refine ⟨?_, ?_⟩ <;> simp [ceremony, hpc, promptCount]
  · intro r hr hne
    have hpc : ceremony_precheck env = ([Event.httpGet], some (precheckErrMsg r)) := by
      rw [ceremony_precheck, hr]
      simp [hne]
    refine ⟨?_, ?_⟩ <;> simp [ceremony, hpc, promptCount]
  · intro r hr hs hb
    have hpc : ceremony_precheck env = ([Event.httpGet], some (formatOptStr r.message)) := by
      rw [ceremony_precheck, hr]
      simp [hs, hb]
    refine ⟨?_, ?_⟩ <;> simp [ceremony, hpc, promptCount]

/-- Witness for `precheck_fatal_before_prompts`: a 200 precheck response with
`bootstrap: true` aborts with its message before any prompt. -/
theorem precheck_fatal_before_prompts_witness :
    (({ get_bootstrap := HttpResult.resp
          ⟨200, some true, some (pystr "System already has a Metadata."), []⟩,
        post_bootstrap := ⟨201, none, none, []⟩,
        importFn := fun _ _ => Except.ok 1, initMeta := fun _ => [] : Env }).get_bootstrap
      = HttpResult.resp ⟨200, some true, some (pystr "System already has a Metadata."), []⟩)
    ∧ ((ceremony true
        { get_bootstrap := HttpResult.resp
            ⟨200, some true, some (pystr "System already has a Metadata."), []⟩,
          post_bootstrap := ⟨201, none, none, []⟩,
          importFn := fun _ _ => Except.ok 1, initMeta := fun _ => [] }
        ⟨true, [], true, [], []⟩).2
      = Outcome.aborted (pystr "System already has a Metadata.")
      ∧ promptCount (ceremony true
        { get_bootstrap := HttpResult.resp
            ⟨200, some true, some (pystr "System already has a Metadata."), []⟩,
          post_bootstrap := ⟨201, none, none, []⟩,
          importFn := fun _ _ => Except.ok 1, initMeta := fun _ => [] }
        ⟨true, [], true, [], []⟩).1 = 0) :=
  ⟨rfl,
   (precheck_fatal_before_prompts
     { get_bootstrap := HttpResult.resp
         ⟨200, some true, some (pystr "System already has a Metadata."), []⟩,
       post_bootstrap := ⟨201, none, none, []⟩,
       importFn := fun _ _ => Except.ok 1, initMeta := fun _ => [] }
     ⟨true, [], true, [], []⟩).2.2
     ⟨200, some true, some (pystr "System already has a Metadata."), []⟩ rfl rfl rfl⟩

/-- Whether a trace consists of operator prompts only (no HTTP events). -/
def promptsOnly (t : List Event) : Bool :=
  t.all (fun e => match e with | .prompt _ => true | _ => false)

theorem promptsOnly_append (x y : List Event) :
    promptsOnly (x ++ y) = (promptsOnly x && promptsOnly y) := by
  simp [promptsOnly, List.all_append]

theorem promptsOnly_cons_prompt (tag : String) (l : List Event) :
    promptsOnly (Event.prompt tag :: l) = promptsOnly l := by
  simp [promptsOnly]

theorem promptsOnly_nil : promptsOnly [] = true := rfl

theorem httpCount_zero_of_promptsOnly (t : List Event) (h : promptsOnly t = true) :
    httpCount t = 0 := by
  induction t with
  | nil => rfl
  | cons e rest ih =>
    cases e with
    | prompt tag =>
      rw [promptsOnly, List.all_cons, Bool.and_eq_true] at h
      have h2 : httpCount (Event.prompt tag :: rest) = httpCount rest := by
        simp [httpCount, List.filter_cons]
      rw [h2]
      exact ih h.2
    | httpGet => simp [promptsOnly] at h
    | httpPost => simp [promptsOnly] at h

theorem postCount_zero_of_promptsOnly (t : List Event) (h : promptsOnly t = true) :
    postCount t = 0 := by
  induction t with
  | nil => rfl
  | cons e rest ih =>
    cases e with
    | prompt tag =>
      rw [promptsOnly, List.all_cons, Bool.and_eq_true] at h
      have h2 : postCount (Event.prompt tag :: rest) = postCount rest := by
        simp [postCount, List.filter_cons]
      rw [h2]
      exact ih h.2
    | httpGet => simp [promptsOnly] at h
    | httpPost => simp [promptsOnly] at h

theorem postCount_append (x y : List Event) :
    postCount (x ++ y) = postCount x + postCount y := by
  simp [postCount, List.filter_append]

theorem configure_role_promptsOnly (rname : PyStr) (dflt : RoleSettings)
    (ans : RoleAnswers) (role : RolesKeysInput) (service : ServiceSettings) :
    promptsOnly (_configure_role rname dflt ans role service).events = true := by
  unfold _configure_role
  dsimp only
  by_cases hgt : ans.num_of_keys > 1 <;> split <;> simp [hgt, promptsOnly] <;>
    split <;> simp [promptsOnly]

theorem configure_keys_promptsOnly (rname : PyStr)
    (importFn : PyStr → PyStr → Except ImportErr KeyMaterial) (b a : RolesMap) :
    ∀ (script : List ScriptEvent) (role : RolesKeysInput) (kc : Nat),
      promptsOnly (_configure_keys rname importFn b a role kc script).1 = true := by
  intro script
  induction script with
  | nil =>
    intro role kc
    by_cases hlt : (role.keys.length : Int) < role.num_of_keys
    · rw [cfgk_stuck hlt]; rfl
    · rw [configure_keys_done hlt]; rfl
  | cons ev rest ih =>
    intro role kc
    by_cases hlt : (role.keys.length : Int) < role.num_of_keys
    · cases himp : importFn ev.filepath ev.password with
      | error e =>
        obtain ⟨m, hm⟩ := load_key_error himp
        by_cases htry : ev.try_again = true
        · rw [cfgk_err_retry hlt hm htry]
          simpa [promptsOnly] using ih role kc
        · rw [cfgk_err_abort hlt hm (Bool.not_eq_true _ ▸ htry)]; rfl
      | ok km =>
        have hk := load_key_ok himp
        by_cases hdup : _key_is_duplicated km (keysScanList b a rname role) = true
        · rw [cfgk_dup hlt hk hdup]
          simpa [promptsOnly] using ih role kc
        · rw [cfgk_accept hlt hk (Bool.not_eq_true _ ▸ hdup)]
          simpa [promptsOnly] using ih (acceptKey rname role kc ev (some km)) (kc + 1)
    · rw [configure_keys_done hlt]; rfl

theorem configure_phase_promptsOnly :
    ∀ (roles : RolesMap) (answers : List RoleAnswers) (sv : ServiceSettings),
      promptsOnly (configure_phase roles answers sv).1 = true := by
  intro roles
  induction roles with
  | nil => intro answers sv; rfl
  | cons p rest ih =>
    intro answers sv
    obtain ⟨n, r⟩ := p
    cases answers with
    | nil => rfl
    | cons ans more =>
      simp only [configure_phase]
      have hc := configure_role_promptsOnly n (default_settings n) ans r sv
      have ih' := ih more (_configure_role n (default_settings n) ans r sv).service
      rcases hrec : configure_phase rest more
          (_configure_role n (default_settings n) ans r sv).service with ⟨evs, res⟩
      rw [hrec] at ih'
      cases res <;> simp [promptsOnly_append, hc, ih']

theorem collect_phase_promptsOnly
    (importFn : PyStr → PyStr → Except ImportErr KeyMaterial) :
    ∀ (pending : RolesMap) (acc : RolesMap) (scripts : List (List ScriptEvent)),
      promptsOnly (collect_phase importFn acc pending scripts).1 = true := by
  intro pending
  induction pending with
  | nil => intro acc scripts; rfl
  | cons p rest ih =>
    intro acc scripts
    obtain ⟨n, r⟩ := p
    cases scripts with
    | nil => rfl
    | cons ks more =>
      simp only [collect_phase]
      have hpk := configure_keys_promptsOnly n importFn acc rest ks r 1
      rcases hk : _configure_keys n importFn acc rest r 1 ks with ⟨evs, kout⟩
      rw [hk] at hpk
      cases kout with
      | done r' =>
        have ih' := ih (acc ++ [(n, r')]) more
        rcases hrec : collect_phase importFn (acc ++ [(n, r')]) rest more with ⟨evs2, res⟩
        rw [hrec] at ih'
        simp [hrec, promptsOnly_append, hpk, ih']
      | aborted m r2 => exact hpk
      | stuck r2 => exact hpk

theorem review_role_promptsOnly
    (importFn : PyStr → PyStr → Except ImportErr KeyMaterial)
    (b a : RolesMap) (n : PyStr) :
    ∀ (steps : List ReviewStep) (r : RolesKeysInput) (sv : ServiceSettings),
      promptsOnly (review_role importFn b a n r sv steps).1 = true := by
  intro steps
  induction steps with
  | nil => intro r sv; rfl
  | cons step more ih =>
    intro r sv
    simp only [review_role]
    by_cases hc : step.confirm = true
    · simp [hc, promptsOnly]
    · rw [if_neg hc]
      have hcr := configure_role_promptsOnly n (default_settings n) step.answers r sv
      have hpk := configure_keys_promptsOnly n importFn b a step.key_script
        (_configure_role n (default_settings n) step.answers r sv).role 1
      rcases hk : _configure_keys n importFn b a
          (_configure_role n (default_settings n) step.answers r sv).role 1
          step.key_script with ⟨evs, kout⟩
      rw [hk] at hpk
      cases kout with
      | done r' =>
        have ih' := ih r' (_configure_role n (default_settings n) step.answers r sv).service
        rcases hrec : review_role importFn b a n r'
            (_configure_role n (default_settings n) step.answers r sv).service more
            with ⟨evs2, res⟩
        rw [hrec] at ih'
        simp [hrec, promptsOnly_cons_prompt, promptsOnly_append, hcr, hpk, ih']
      | aborted m r2 =>
        simp [promptsOnly_cons_prompt, promptsOnly_append, hcr, hpk]
      | stuck r2 =>
        simp [promptsOnly_cons_prompt, promptsOnly_append, hcr, hpk]

theorem review_phase_promptsOnly
    (importFn : PyStr → PyStr → Except ImportErr KeyMaterial) :
    ∀ (pending : RolesMap) (acc : RolesMap) (sv : ServiceSettings)
      (reviews : List (List ReviewStep)),
      promptsOnly (review_phase importFn acc pending sv reviews).1 = true := by
  intro pending
  induction pending with
  | nil => intro acc sv reviews; rfl
  | cons p rest ih =>
    intro acc sv reviews
    obtain ⟨n, r⟩ := p
    cases reviews with
    | nil => rfl
    | cons steps more =>
      simp only [review_phase]
      have hrr := review_role_promptsOnly importFn acc rest n steps r sv
      rcases hk : review_role importFn acc rest n r sv steps with ⟨evs, res⟩
      rw [hk] at hrr
      cases res with
      | ok pair =>
        obtain ⟨r', sv'⟩ := pair
        have ih' := ih (acc ++ [(n, r')]) sv' more
        rcases hrec : review_phase importFn (acc ++ [(n, r')]) rest sv' more
            with ⟨evs2, res2⟩
        rw [hrec] at ih'
        simp [hrec, promptsOnly_append, hrr, ih']
      | aborted m => exact hrr
      | stuck => exact hrr

theorem ceremony_main_promptsOnly (env : Env) (s : CeremonyScript) :
    promptsOnly (ceremony_main env s).1 = true := by
  rw [ceremony_main]
  by_cases hstart : s.start_ceremony = false
  · simp [hstart, promptsOnly]
  · rw [if_neg hstart]
    have hp1 := configure_phase_promptsOnly initialRoles s.role_answers initialService
    rcases hcp : configure_phase initialRoles s.role_answers initialService
        with ⟨evs1, res1⟩
    rw [hcp] at hp1
    cases res1 with
    | aborted m => simpa [promptsOnly_cons_prompt] using hp1
    | stuck => simpa [promptsOnly_cons_prompt] using hp1
    | ok pair =>
      obtain ⟨roles1, sv1⟩ := pair
      by_cases hready : s.ready_to_load = false
      · simp [hready, promptsOnly_cons_prompt, promptsOnly_append, promptsOnly_nil, hp1]
      · simp only [if_neg hready]
        have hp2 := collect_phase_promptsOnly env.importFn roles1 [] s.key_scripts
        rcases hcl : collect_phase env.importFn [] roles1 s.key_scripts with ⟨evs2, res2⟩
        rw [hcl] at hp2
        cases res2 with
        | aborted m =>
          simp [promptsOnly_cons_prompt, promptsOnly_append, hp1, hp2]
        | stuck =>
          simp [promptsOnly_cons_prompt, promptsOnly_append, hp1, hp2]
        | ok roles2 =>
          have hp3 := review_phase_promptsOnly env.importFn roles2 [] sv1 s.reviews
          rcases hrv : review_phase env.importFn [] roles2 sv1 s.reviews with ⟨evs3, res3⟩
          rw [hrv] at hp3
          cases res3 with
          | aborted m =>
            simp [hrv, promptsOnly_cons_prompt, promptsOnly_append, hp1, hp2, hp3]
          | stuck =>
            simp [hrv, promptsOnly_cons_prompt, promptsOnly_append, hp1, hp2, hp3]
          | ok pair2 =>
            obtain ⟨roles3, sv2⟩ := pair2
            simp [hrv, promptsOnly_cons_prompt, promptsOnly_append, hp1, hp2, hp3]

theorem ceremony_precheck_trace (env : Env) :
    (ceremony_precheck env).1 = [Event.httpGet] := by
  cases h : env.get_bootstrap <;> simp [ceremony_precheck, h]

/-- C8: once the ceremony has built its payload, a submission response with
any status other than 201 is fatal, surfacing the response body verbatim,
and exactly one POST is issued (no retry); with no server supplied, no HTTP
call is made at all and the ceremony completes with the built payload. -/
theorem submission_non_created_fatal (env : Env) (s : CeremonyScript)
    (hpre : (ceremony_precheck env).2 = none)
    (hok : (ceremony_main env s).2.isOk = true) :
    (env.post_bootstrap.status_code ≠ 201 →
        (ceremony true env s).2 = Outcome.aborted env.post_bootstrap.text
        ∧ postCount (ceremony true env s).1 = 1)
    ∧ httpCount (ceremony false env s).1 = 0
    ∧ (∀ p, (ceremony_main env s).2 = PhRes.ok p →
        (ceremony false env s).2 = Outcome.completed p) := by
  cases hmp : (ceremony_main env s).2 with
  | aborted m => rw [hmp] at hok; simp [PhRes.isOk] at hok
  | stuck => rw [hmp] at hok; simp [PhRes.isOk] at hok
  | ok p =>
    refine ⟨?_, ?_, ?_⟩
    · intro hne
      constructor
      · simp [ceremony, hpre, hmp, hne]
      · have h1 : (ceremony true env s).1
            = (ceremony_precheck env).1 ++ (ceremony_main env s).1 ++ [Event.httpPost] := by
          simp [ceremony, hpre, hmp, hne]
        rw [h1, postCount_append, postCount_append, ceremony_precheck_trace,
          postCount_zero_of_promptsOnly _ (ceremony_main_promptsOnly env s)]
        decide
    · have h3 : (ceremony false env s).1 = (ceremony_main env s).1 := by
        simp [ceremony, hmp]
      rw [h3]
      exact httpCount_zero_of_promptsOnly _ (ceremony_main_promptsOnly env s)
    · intro p' hp'
      injection hp' with h
      subst h
      simp [ceremony, hmp]

/-- Answers used by the concrete full ceremony run. -/
def c8_ans : RoleAnswers := ⟨1, 1, 1, false, pystr "u", pystr "*", 4⟩

/-- One key-loading pass of the concrete run. -/
def c8_step (fp : String) : ScriptEvent := ⟨pystr fp, pystr "p", true⟩

/-- A confirming review pass of the concrete run. -/
def c8_review : ReviewStep := ⟨true, c8_ans, []⟩

/-- Environment of the concrete run: clean precheck, key import returning
the (distinct) path lengths as material, and a 500 rejection on submission. -/
def c8_env : Env :=
  { get_bootstrap := HttpResult.resp ⟨200, some false, none, []⟩
    post_bootstrap := ⟨500, none, none, pystr "ERR"⟩
    importFn := fun fp _ => Except.ok fp.length
    initMeta := fun _ => [] }

/-- Operator script of the concrete run: one key per role, every review
confirmed. -/
def c8_script : CeremonyScript :=
  { start_ceremony := true
    role_answers := [c8_ans, c8_ans, c8_ans, c8_ans, c8_ans, c8_ans]
    ready_to_load := true
    key_scripts := [[c8_step "a"], [c8_step "ab"], [c8_step "abc"], [c8_step "abcd"],
      [c8_step "abcde"], [c8_step "abcdef"]]
    reviews := [[c8_review], [c8_review], [c8_review], [c8_review], [c8_review],
      [c8_review]] }

/-- Witness for `submission_non_created_fatal` on the concrete full run. -/
theorem submission_non_created_fatal_witness :
    ((ceremony_precheck c8_env).2 = none)
    ∧ ((ceremony_main c8_env c8_script).2.isOk = true)
    ∧ ((ceremony true c8_env c8_script).2 = Outcome.aborted (pystr "ERR")
        ∧ postCount (ceremony true c8_env c8_script).1 = 1) :=
  ⟨by decide, by decide,
   (submission_non_created_fatal c8_env c8_script (by decide) (by decide)).1 (by decide)⟩
